import Mathlib

/-!
# Verification of `disk_health_monitor.py`

A shallow embedding of the decision logic of `disk_health_monitor.py`:
device/partition enumeration (`get_disks`, `get_partitions`), SMART health
classification (`check_smart_status`), log anomaly scanning
(`parse_log_for_errors`), alert decision and payload composition (`main`),
alert delivery (`send_email`), and the guarded repair workflow
(`is_mounted`, `repair_filesystem`).

External effects are made explicit: each external process invocation is a
parameter of the embedded function.  `Option` models a Python call that may
raise (`none` = the call raised an exception that the surrounding
`try`/`except` catches); exit statuses of spawned processes are `Int`.
Strings are handled at the `List Char` level where the Python `str.split`,
`str.strip` and substring tests have to be modelled precisely.
-/

namespace DiskHealthMonitor

/-! ## Character/string helpers modelling Python string primitives -/

/-- Python whitespace test for the characters relevant here (`str.split()`
and `str.strip()` split/strip on whitespace). -/
def isWs (c : Char) : Bool :=
  c = ' ' || c = '\t' || c = '\n' || c = '\r'

/-- `str.strip()` on a character list: drop whitespace from both ends. -/
def stripChars (cs : List Char) : List Char :=
  ((cs.dropWhile isWs).reverse.dropWhile isWs).reverse

/-- `str.strip()` on a `String`. -/
def pyStrip (s : String) : String :=
  String.mk (stripChars s.data)

/-- Newline split of `s`: split on newline characters, keeping empty
pieces; the result is always non-empty (in Python an empty string splits
to a singleton list holding the empty string). -/
def splitNl : List Char → List (List Char)
  | [] => [[]]
  | c :: cs =>
    if c = '\n' then [] :: splitNl cs
    else
      match splitNl cs with
      | t :: ts => (c :: t) :: ts
      | [] => [[c]]

/-- Accumulator-passing worker for `str.split()` (split on whitespace runs,
discarding empty tokens). `cur` is the current token, reversed. -/
def wsTokensAux : List Char → List Char → List (List Char)
  | [], cur => if cur.isEmpty then [] else [cur.reverse]
  | c :: rest, cur =>
    if isWs c then
      if cur.isEmpty then wsTokensAux rest []
      else cur.reverse :: wsTokensAux rest []
    else wsTokensAux rest (c :: cur)

/-- `str.split()` with no separator: whitespace-run split, no empty tokens. -/
def wsTokens (cs : List Char) : List (List Char) :=
  wsTokensAux cs []

/-- `leadsWith p s` holds when `p` is a leading segment of `s`. -/
def leadsWith : List Char → List Char → Bool
  | [], _ => true
  | _ :: _, [] => false
  | p :: ps, c :: cs => p = c && leadsWith ps cs

/-- The Python `needle in hay` substring test on character lists. -/
def containsSub (needle : List Char) : List Char → Bool
  | [] => leadsWith needle []
  | c :: t => leadsWith needle (c :: t) || containsSub needle t

/-- `str.lower()` restricted to ASCII (all keywords in the program are
ASCII, so this is faithful where it is used). -/
def lowerChars (s : String) : List Char :=
  s.data.map Char.toLower

/-- `str.lower()` as a `String`. -/
def pyLower (s : String) : String :=
  String.mk (lowerChars s)

/-! ## DeviceInventory: `get_disks` / `get_partitions` -/

/-- One registry row: `name, typ = line.split()` succeeds exactly when the
line has exactly two whitespace-separated fields; otherwise the unpacking
raises `ValueError`. -/
def parseRow (l : List Char) : Option (List Char × List Char) :=
  match wsTokens l with
  | [n, t] => some (n, t)
  | _ => none

/-- The device path `f"/dev/{name}"`. -/
def devPath (n : List Char) : String :=
  String.mk ("/dev/".data ++ n)

/-- The enumeration loop shared by `get_disks` and `get_partitions`:
rows whose type field equals `target` are appended to `acc`; a row whose
unpacking raises aborts the loop, and the enclosing `except` makes the
whole enumeration return `[]` (discarding `acc`). -/
def rowsLoop (target : List Char) : List (List Char) → List String → List String
  | [], acc => acc
  | l :: ls, acc =>
    match parseRow l with
    | none => []
    | some (n, t) =>
      rowsLoop target ls (if t = target then acc ++ [devPath n] else acc)

/-- The stripped stdout split at newlines, as a list of character lines. -/
def registryLines (out : String) : List (List Char) :=
  splitNl (stripChars out.data)

/-- `get_disks()` given the outcome of the `lsblk -dn -o NAME,TYPE` call:
`none` models the call itself raising. -/
def get_disks (query : Option String) : List String :=
  match query with
  | none => []
  | some out => rowsLoop "disk".data (registryLines out) []

/-- `get_partitions(disk)` given the outcome of the
`lsblk -ln -o NAME,TYPE <disk>` call. -/
def get_partitions (query : Option String) : List String :=
  match query with
  | none => []
  | some out => rowsLoop "part".data (registryLines out) []

/-! ## HealthClassifier: `check_smart_status` -/

/-- `\w` of the pattern, for the ASCII alphabet of SMART tokens. -/
def isWordChar (c : Char) : Bool :=
  c.isAlphanum || c = '_'

/-- The literal part of the regex: the text
`SMART overall-health self-assessment test result:` and a space, followed
in the pattern by a captured word. -/
def smartPat : List Char :=
  "SMART overall-health self-assessment test result: ".data

/-- `re.search` for the SMART pattern: scan left to right; at the first
position where the literal occurs and is followed by at least one word
character, capture the maximal word-character run (`(\w+)` is greedy and
final). -/
def searchSmart : List Char → Option (List Char)
  | [] => none
  | c :: rest =>
    if leadsWith smartPat (c :: rest) then
      match ((c :: rest).drop smartPat.length).takeWhile isWordChar with
      | [] => searchSmart rest
      | w => some w
    else searchSmart rest

/-- `check_smart_status(disk)` given the outcome of the `smartctl -H` call:
`none` models the call raising (process launch failure); `some out` is the
captured stdout (a nonzero exit of the tool still yields `some`). -/
def check_smart_status (toolOut : Option String) : String :=
  match toolOut with
  | none => "ERROR"
  | some out =>
    match searchSmart out.data with
    | some w => String.mk w
    | none => "UNKNOWN"

/-! ## LogAnomalyScanner: `parse_log_for_errors` -/

/-- The fixed keyword vocabulary `error_keywords`. -/
def error_keywords : List String :=
  ["I/O error", "ata_error", "fail", "error", "unresponsive", "offline", "faulty"]

/-- `any(keyword.lower() in line.lower() for keyword in error_keywords)`. -/
def anomalyLine (line : String) : Bool :=
  error_keywords.any (fun kw => containsSub (lowerChars kw) (lowerChars line))

/-- `parse_log_for_errors()` given the obtained sequence of log lines
(the file/journal source is abstracted to the line sequence it yields);
`none` models the retrieval raising, in which case the `except` leaves the
accumulated `errors = []` in place.  Matching lines are appended stripped. -/
def parse_log_for_errors (src : Option (List String)) : List String :=
  match src with
  | none => []
  | some lines => (lines.filter anomalyLine).map pyStrip

/-! ## Notifier boundary: `send_email` -/

/-- `send_email(subject, body)` given the outcome of composing and sending
the message (`Except.error` models any exception raised inside the `try`).
The function catches every exception and returns normally either way; the
returned flag records whether `"Alert email sent."` was printed. -/
def send_email (transport : Except String Unit) : Bool :=
  match transport with
  | Except.ok _ => true
  | Except.error _ => false

/-! ## RepairWorkflow: `is_mounted` / `repair_filesystem` -/

/-- `is_mounted(device)` given the outcome of `mountpoint -q <device>`:
`some rc` is the returncode, `none` models the call raising, in which case
the `except` returns `False`. -/
def is_mounted (query : Option Int) : Bool :=
  match query with
  | some rc => rc = 0
  | none => false

/-- External-tool invocations made by `repair_filesystem`, in order. -/
inductive REvent where
  | mountCheck
  | umountCall
  | fsckCall
deriving DecidableEq, Repr

/-- The external world seen by one `repair_filesystem(device)` call:
outcome of the `mountpoint` query, of `umount` and of `fsck -y`
(exit status, or `none` when the process cannot be launched and the call
raises). -/
structure RepairEnv where
  mountQuery : Option Int
  umountExit : Option Int
  fsckExit : Option Int

/-- The `fsck -y` tail of `repair_filesystem`: success iff exit 0; a launch
failure raises and the outer `except` returns `False`.  `tr` is the trace of
invocations already made. -/
def runFsck (env : RepairEnv) (tr : List REvent) : Bool × List REvent :=
  match env.fsckExit with
  | none => (false, tr ++ [REvent.fsckCall])
  | some rc => (rc = 0, tr ++ [REvent.fsckCall])

/-- `repair_filesystem(device)`: result flag and the trace of external-tool
invocations.  If the device is observed mounted, `umount` is attempted; a
nonzero `umount` exit (or a launch failure, which raises into the outer
`except`) returns `False` without running `fsck`; otherwise `fsck -y` runs. -/
def repair_filesystem (env : RepairEnv) : Bool × List REvent :=
  if is_mounted env.mountQuery then
    match env.umountExit with
    | none => (false, [REvent.mountCheck, REvent.umountCall])
    | some rc =>
      if rc ≠ 0 then (false, [REvent.mountCheck, REvent.umountCall])
      else runFsck env [REvent.mountCheck, REvent.umountCall]
  else runFsck env [REvent.mountCheck]

/-! ## AlertDecision and `main` -/

/-- The failed-disk accumulation of `main`: disks whose SMART status
satisfies lowercase-not-equal-to `passed`. `status` maps each disk path to the
string `check_smart_status` returned for it. -/
def failedOf (disks : List String) (status : String → String) : List String :=
  disks.filter (fun d => pyLower (status d) ≠ "passed")

/-- The alert condition `if failed_disks or log_errors:` of `main`. -/
def alertFires (failed logErrors : List String) : Bool :=
  !failed.isEmpty || !logErrors.isEmpty

/-- The fixed alert subject of `main`. -/
def alertSubject : String :=
  "Disk Health Alert on Red Hat System"

/-- One `body += f" - {x}\n"` step of the itemization loops in `main`. -/
def addItem (acc x : String) : String :=
  acc ++ " - " ++ x ++ "\n"

/-- The alert body built by `main`, with its two `body +=` loops as folds:
header, then (if any) the failed-disk section with a trailing blank line,
then (if any) the log-error section. -/
def composeBody (failed logErrors : List String) : String :=
  let b1 := "The following disk issues were detected:\n\n"
  let b2 :=
    if !failed.isEmpty then
      (failed.foldl addItem (b1 ++ "Failed or failing disks (SMART):\n")) ++ "\n"
    else b1
  if !logErrors.isEmpty then
    logErrors.foldl addItem (b2 ++ "Disk-related errors from system logs:\n")
  else b2

/-- Observable outcome of one `main()` run. `emailPayload` is the
`(subject, body)` handed to `send_email` when the alert fires;
`repairTargets` is the disk list handed to `prompt_repair` (`none` when it
is never invoked). -/
structure MainResult where
  scanRan : Bool
  failedDisks : List String
  logErrors : List String
  alertFired : Bool
  emailPayload : Option (String × String)
  emailSent : Option Bool
  repairTargets : Option (List String)
deriving DecidableEq, Repr

/-- `main()` as a function of its external world: the `lsblk` output (for
`get_disks`), the per-disk SMART status strings, the obtained log lines and
the mail transport outcome.  `if not disks: return` ends the run before
the log scan; otherwise classification, the single log scan, the alert
decision, and — when the alert fires — `send_email` and `prompt_repair`. -/
def mainRun (registry : Option String) (status : String → String)
    (logSrc : Option (List String)) (transport : Except String Unit) : MainResult :=
  let disks := get_disks registry
  if disks.isEmpty then
    ⟨false, [], [], false, none, none, none⟩
  else
    let failed := failedOf disks status
    let logErrors := parse_log_for_errors logSrc
    if alertFires failed logErrors then
      ⟨true, failed, logErrors, true,
        some (alertSubject, composeBody failed logErrors),
        some (send_email transport), some failed⟩
    else
      ⟨true, failed, logErrors, false, none, none, none⟩

/-- Outcome of a whole process invocation: the exit status, whether the
device scan (`get_disks`) was ever reached, and the `main` outcome when
`main` ran. -/
structure ProgResult where
  exitCode : Nat
  deviceScanRan : Bool
  run : Option MainResult
deriving DecidableEq, Repr

/-- The program entry: the `import config` guard exits with status `1`
before anything else when the configuration module is absent; otherwise
`main()` runs and the process completes with status `0` (no other `exit`
call exists in the source). -/
def program (configPresent : Bool) (registry : Option String)
    (status : String → String) (logSrc : Option (List String))
    (transport : Except String Unit) : ProgResult :=
  if configPresent then
    ⟨0, true, some (mainRun registry status logSrc transport)⟩
  else
    ⟨1, false, none⟩

/-! ## Spec-side payload composition (for the refinement claim C7)

These definitions follow the wording of the specification: a body that
itemizes failed disks (if any) followed by itemized anomalous log lines
(if any), empty categories omitted entirely. -/

/-- Spec wording: one ` - item` line per entry. -/
def specItems : List String → String
  | [] => ""
  | x :: xs => " - " ++ x ++ "\n" ++ specItems xs

/-- Spec wording: the failed-disk section, absent when the set is empty. -/
def specFailedSection (failed : List String) : String :=
  if failed.isEmpty then ""
  else "Failed or failing disks (SMART):\n" ++ specItems failed ++ "\n"

/-- Spec wording: the log-anomaly section, absent when the list is empty. -/
def specLogSection (logErrors : List String) : String :=
  if logErrors.isEmpty then ""
  else "Disk-related errors from system logs:\n" ++ specItems logErrors

/-- Spec wording: header, then failed disks, then anomalous lines. -/
def specBody (failed logErrors : List String) : String :=
  "The following disk issues were detected:\n\n" ++
    specFailedSection failed ++ specLogSection logErrors

/-! ## Lemmas about the string helpers -/

theorem leadsWith_iff (p : List Char) : ∀ s : List Char,
    leadsWith p s = true ↔ ∃ t, s = p ++ t := by
  induction p with
  | nil =>
    intro s
    simp [leadsWith]
  | cons a ps ih =>
    intro s
    cases s with
    | nil =>
      simp [leadsWith]
    | cons c cs =>
      simp only [leadsWith, Bool.and_eq_true, decide_eq_true_eq, ih cs, List.cons_append,
        List.cons.injEq]
      constructor
      · rintro ⟨rfl, t, rfl⟩
        exact ⟨t, rfl, rfl⟩
      · rintro ⟨t, rfl, rfl⟩
        exact ⟨rfl, t, rfl⟩

theorem containsSub_iff (n : List Char) : ∀ h : List Char,
    containsSub n h = true ↔ ∃ p q, h = p ++ n ++ q := by
  intro h
  induction h with
  | nil =>
    simp only [containsSub, leadsWith_iff]
    constructor
    · rintro ⟨t, ht⟩
      exact ⟨[], t, by simpa using ht⟩
    · rintro ⟨p, q, hpq⟩
      rcases List.append_eq_nil.mp hpq.symm with ⟨h1, hq⟩
      rcases List.append_eq_nil.mp h1 with ⟨-, h2⟩
      exact ⟨q, by simp [h2, hq]⟩
  | cons c t ih =>
    simp only [containsSub, Bool.or_eq_true, leadsWith_iff, ih]
    constructor
    · rintro (⟨q, hq⟩ | ⟨p, q, rfl⟩)
      · exact ⟨[], q, by simpa using hq⟩
      · exact ⟨c :: p, q, by simp⟩
    · rintro ⟨p, q, hpq⟩
      cases p with
      | nil =>
        exact Or.inl ⟨q, by simpa using hpq⟩
      | cons a ptl =>
        rw [List.cons_append, List.cons_append] at hpq
        injection hpq with h1 h2
        exact Or.inr ⟨ptl, q, h2⟩

/-- Anything `searchSmart` returns is a non-empty run of word characters
immediately following an occurrence of the literal pattern in the input. -/
theorem searchSmart_spec : ∀ s w : List Char, searchSmart s = some w →
    w ≠ [] ∧ w.all isWordChar = true ∧ ∃ p q, s = p ++ smartPat ++ (w ++ q) := by
  intro s
  induction s with
  | nil =>
    intro w h
    simp [searchSmart] at h
  | cons c rest ih =>
    intro w h
    rw [searchSmart] at h
    by_cases hl : leadsWith smartPat (c :: rest) = true
    · rw [if_pos hl] at h
      cases hw : ((c :: rest).drop smartPat.length).takeWhile isWordChar with
      | nil =>
        rw [hw] at h
        obtain ⟨hne, hall, p, q, hpq⟩ := ih w h
        exact ⟨hne, hall, c :: p, q, by rw [hpq]; simp⟩
      | cons a wtl =>
        rw [hw] at h
        injection h with h
        subst h
        obtain ⟨t, ht⟩ := (leadsWith_iff smartPat (c :: rest)).mp hl
        have hdrop : (c :: rest).drop smartPat.length = t := by
          rw [ht, List.drop_left]
        rw [hdrop] at hw
        refine ⟨List.cons_ne_nil a wtl, ?_, [], t.dropWhile isWordChar, ?_⟩
        · rw [List.all_eq_true]
          intro x hx
          exact List.mem_takeWhile_imp (hw ▸ hx)
        · rw [List.nil_append, ht, ← hw, List.takeWhile_append_dropWhile]
    · rw [if_neg hl] at h
      obtain ⟨hne, hall, p, q, hpq⟩ := ih w h
      exact ⟨hne, hall, c :: p, q, by rw [hpq]; simp⟩

/-! ## Lemmas about the enumeration loop -/

/-- The entry a well-formed registry row contributes to the enumeration. -/
def rowEntry (target : List Char) (l : List Char) : Option String :=
  (parseRow l).bind (fun nt => if nt.2 = target then some (devPath nt.1) else none)

theorem rowsLoop_of_malformed (t : List Char) : ∀ (ls : List (List Char))
    (acc : List String), (∃ l ∈ ls, parseRow l = none) → rowsLoop t ls acc = [] := by
  intro ls
  induction ls with
  | nil =>
    rintro acc ⟨l, hl, -⟩
    cases hl
  | cons x xs ih =>
    rintro acc ⟨l, hl, hp⟩
    cases hx : parseRow x with
    | none =>
      rw [rowsLoop, hx]
    | some nt =>
      obtain ⟨n, ty⟩ := nt
      rw [rowsLoop, hx]
      rcases List.mem_cons.mp hl with rfl | hmem
      · rw [hx] at hp
        cases hp
      · exact ih _ ⟨l, hmem, hp⟩

theorem rowsLoop_clean (t : List Char) : ∀ (ls : List (List Char))
    (acc : List String), (∀ l ∈ ls, parseRow l ≠ none) →
    rowsLoop t ls acc = acc ++ ls.filterMap (rowEntry t) := by
  intro ls
  induction ls with
  | nil =>
    intro acc _
    simp [rowsLoop]
  | cons x xs ih =>
    intro acc hwf
    cases hx : parseRow x with
    | none =>
      exact absurd hx (hwf x (List.mem_cons_self x xs))
    | some nt =>
      obtain ⟨n, ty⟩ := nt
      rw [rowsLoop, hx]
      dsimp only
      rw [ih _ (fun l hl => hwf l (List.mem_cons_of_mem x hl)), List.filterMap_cons]
      unfold rowEntry
      rw [hx]
      by_cases hty : ty = t
      · simp [hty]
      · simp [hty]

/-! ## Lemmas about payload composition -/

theorem foldl_specItems (l : List String) : ∀ acc : String,
    l.foldl addItem acc = acc ++ specItems l := by
  induction l with
  | nil =>
    intro acc
    simp [specItems, String.append_empty]
  | cons x xs ih =>
    intro acc
    rw [List.foldl_cons, ih, specItems]
    simp [addItem, String.append_assoc]

/-- The body `main` builds equals the spec-worded composition. -/
theorem composeBody_eq_specBody (failed logErrors : List String) :
    composeBody failed logErrors = specBody failed logErrors := by
  unfold composeBody specBody specFailedSection specLogSection
  by_cases h1 : failed.isEmpty <;> by_cases h2 : logErrors.isEmpty <;>
    simp [h1, h2, foldl_specItems, String.append_empty, ← String.append_assoc]

/-! ## Claim theorems -/

/-- C1: in `repair_filesystem`, whenever the mount-state check observes the
partition as mounted, the unmount invocation happens right after the mount
check and before any `fsck` invocation; `fsck` is only ever invoked when the
partition was observed unmounted or the unmount succeeded (exit 0); and a
nonzero unmount exit makes the workflow return failure with no `fsck`
invocation at all. -/
theorem c1_mounted_unmount_before_check (env : RepairEnv) :
    (is_mounted env.mountQuery = true →
      (repair_filesystem env).2 = [REvent.mountCheck, REvent.umountCall] ∨
      (repair_filesystem env).2 =
        [REvent.mountCheck, REvent.umountCall, REvent.fsckCall]) ∧
    (REvent.fsckCall ∈ (repair_filesystem env).2 →
      is_mounted env.mountQuery = false ∨ env.umountExit = some 0) ∧
    (∀ rc : Int, is_mounted env.mountQuery = true → env.umountExit = some rc →
      rc ≠ 0 →
      (repair_filesystem env).1 = false ∧
      REvent.fsckCall ∉ (repair_filesystem env).2) := by
  obtain ⟨mq, ue, fe⟩ := env
  cases hm : is_mounted mq with
  | false =>
    cases fe <;> simp [repair_filesystem, runFsck, hm]
  | true =>
    cases ue with
    | none =>
      simp [repair_filesystem, runFsck, hm]
    | some rc0 =>
      by_cases hrc : rc0 = 0
      · subst hrc
        cases fe <;> simp [repair_filesystem, runFsck, hm]
      · simp [repair_filesystem, runFsck, hm, hrc]

/-- Witness for C1: a partition observed mounted (`mountpoint` exit 0) whose
unmount returns exit 1 yields failure and no `fsck` invocation. -/
theorem c1_witness :
    (repair_filesystem ⟨some 0, some 1, some 0⟩).1 = false ∧
    REvent.fsckCall ∉ (repair_filesystem ⟨some 0, some 1, some 0⟩).2 :=
  (c1_mounted_unmount_before_check ⟨some 0, some 1, some 0⟩).2.2 1 (by decide)
    rfl (by decide)

/-- C10: when the `mountpoint` query itself raises, `is_mounted` returns
`false`, and `repair_filesystem` proceeds directly to the filesystem check
without any unmount invocation. -/
theorem c10_mount_query_failure (env : RepairEnv)
    (h : env.mountQuery = none) :
    is_mounted env.mountQuery = false ∧
    (repair_filesystem env).2 = [REvent.mountCheck, REvent.fsckCall] ∧
    REvent.umountCall ∉ (repair_filesystem env).2 := by
  obtain ⟨mq, ue, fe⟩ := env
  subst h
  cases fe <;> simp [repair_filesystem, runFsck, is_mounted]

/-- Witness for C10: a raising mount query with a healthy `fsck` exit. -/
theorem c10_witness :
    is_mounted (RepairEnv.mk none (some 0) (some 0)).mountQuery = false ∧
    (repair_filesystem ⟨none, some 0, some 0⟩).2 =
      [REvent.mountCheck, REvent.fsckCall] ∧
    REvent.umountCall ∉ (repair_filesystem ⟨none, some 0, some 0⟩).2 :=
  c10_mount_query_failure ⟨none, some 0, some 0⟩ rfl

/-- C2: the alert condition of `main` fires iff the failed-disk set is
non-empty or the anomaly list is non-empty, and a disk is in the failed set
exactly when its reported status is anything whose lowercasing differs from
`passed` (so `FAILED`, `UNKNOWN` and `ERROR` all count). -/
theorem c2_alert_iff (disks : List String) (status : String → String)
    (anomalies : List String) :
    (alertFires (failedOf disks status) anomalies = true ↔
      failedOf disks status ≠ [] ∨ anomalies ≠ []) ∧
    (∀ d, d ∈ failedOf disks status ↔
      d ∈ disks ∧ pyLower (status d) ≠ "passed") := by
  constructor
  · simp [alertFires, List.isEmpty_iff]
  · intro d
    simp [failedOf, List.mem_filter]

/-- Witness for C2: with `/dev/sda` passed and `/dev/sdb` failed and no
anomalies, the alert fires and the failed set contains `/dev/sdb`. -/
theorem c2_witness :
    alertFires
      (failedOf ["/dev/sda", "/dev/sdb"]
        (fun d => if d = "/dev/sdb" then "FAILED" else "PASSED")) [] = true ∧
    "/dev/sdb" ∈ failedOf ["/dev/sda", "/dev/sdb"]
      (fun d => if d = "/dev/sdb" then "FAILED" else "PASSED") :=
  ⟨(c2_alert_iff ["/dev/sda", "/dev/sdb"]
      (fun d => if d = "/dev/sdb" then "FAILED" else "PASSED") []).1.mpr
      (Or.inl (by decide)),
   ((c2_alert_iff ["/dev/sda", "/dev/sdb"]
      (fun d => if d = "/dev/sdb" then "FAILED" else "PASSED") []).2
      "/dev/sdb").mpr (by decide)⟩

/-- Counterexample to C3: when enumeration yields no disks, `main` returns
at `if not disks` before the log scan, so a non-empty anomaly source alone
does not fire an alert (the scan never runs). -/
theorem c3_counterexample :
    parse_log_for_errors (some ["disk fail imminent"]) ≠ [] ∧
    (mainRun (some "loop0 loop") (fun _ => "PASSED")
      (some ["disk fail imminent"]) (Except.ok ())).scanRan = false ∧
    (mainRun (some "loop0 loop") (fun _ => "PASSED")
      (some ["disk fail imminent"]) (Except.ok ())).alertFired = false := by
  refine ⟨by decide, rfl, rfl⟩

/-- C3 amended: the log anomaly scan runs exactly once, and its result is
independent of the disk statuses, whenever disk enumeration is non-empty;
when enumeration yields an empty sequence the run ends before the scan with
no alert. -/
theorem c3_scan_once (registry : Option String)
    (status statusB : String → String) (logSrc : Option (List String))
    (transport transportB : Except String Unit) :
    (get_disks registry ≠ [] →
      (mainRun registry status logSrc transport).scanRan = true ∧
      (mainRun registry status logSrc transport).logErrors =
        parse_log_for_errors logSrc ∧
      (mainRun registry status logSrc transport).logErrors =
        (mainRun registry statusB logSrc transportB).logErrors) ∧
    (get_disks registry = [] →
      (mainRun registry status logSrc transport).scanRan = false ∧
      (mainRun registry status logSrc transport).alertFired = false) := by
  constructor
  · intro h
    cases hd : get_disks registry with
    | nil => exact absurd hd h
    | cons d ds =>
      unfold mainRun
      rw [hd]
      simp only [List.isEmpty_cons, Bool.false_eq_true, if_false]
      refine ⟨?_, ?_, ?_⟩
      · split <;> rfl
      · split <;> rfl
      · split <;> split <;> rfl
  · intro h
    unfold mainRun
    rw [h]
    exact ⟨rfl, rfl⟩

/-- Witness for C3 (amended): one disk enumerated, a clean log, the scan
runs; and the empty-enumeration side at a registry with no disk rows. -/
theorem c3_witness :
    (mainRun (some "sda disk") (fun _ => "PASSED") (some ["all good"])
      (Except.ok ())).scanRan = true ∧
    (mainRun (some "loop0 loop") (fun _ => "FAILED") (some ["all good"])
      (Except.ok ())).scanRan = false :=
  ⟨((c3_scan_once (some "sda disk") (fun _ => "PASSED") (fun _ => "PASSED")
      (some ["all good"]) (Except.ok ()) (Except.ok ())).1 (by decide)).1,
   ((c3_scan_once (some "loop0 loop") (fun _ => "FAILED") (fun _ => "FAILED")
      (some ["all good"]) (Except.ok ()) (Except.ok ())).2 (by decide)).1⟩

/-- Counterexample to C4: a malformed middle row (one field) makes
`get_disks` return `[]`, discarding the well-formed rows `sda`/`sdb`
instead of skipping only the malformed row. -/
theorem c4_counterexample :
    get_disks (some "sda disk\nbad\nsdb disk") = [] ∧
    "/dev/sdb" ∉ get_disks (some "sda disk\nbad\nsdb disk") := by
  decide

/-- C4 amended: a registry output containing any malformed row (field count
different from two) makes the whole enumeration return the empty list,
discarding even the well-formed rows; only an output whose rows are all
well-formed yields their entries. -/
theorem c4_malformed_aborts (out : String) :
    ((∃ l ∈ registryLines out, parseRow l = none) →
      get_disks (some out) = [] ∧ get_partitions (some out) = []) ∧
    ((∀ l ∈ registryLines out, parseRow l ≠ none) →
      get_disks (some out) =
        (registryLines out).filterMap (rowEntry "disk".data) ∧
      get_partitions (some out) =
        (registryLines out).filterMap (rowEntry "part".data)) := by
  constructor
  · intro h
    exact ⟨rowsLoop_of_malformed _ _ _ h, rowsLoop_of_malformed _ _ _ h⟩
  · intro h
    constructor
    · simpa using rowsLoop_clean "disk".data (registryLines out) [] h
    · simpa using rowsLoop_clean "part".data (registryLines out) [] h

/-- Witness for C4 (amended): both sides at concrete registry outputs. -/
theorem c4_witness :
    get_disks (some "sda disk\nbad\nsdb disk") = [] ∧
    get_disks (some "sda disk\nsdb disk") = ["/dev/sda", "/dev/sdb"] :=
  ⟨((c4_malformed_aborts "sda disk\nbad\nsdb disk").1 (by decide)).1,
   (((c4_malformed_aborts "sda disk\nsdb disk").2 (by decide)).1).trans
     (by decide)⟩

/-- C5: `check_smart_status` is total over every tool outcome and its
result is exactly characterized: `ERROR` when the tool cannot be launched,
`UNKNOWN` when the fixed textual pattern finds no token in the output, and
otherwise the captured pass/fail token itself — a non-empty word-character
run immediately following the literal pattern in the output; every result
is of one of these forms. -/
theorem c5_classifier_total (toolOut : Option String) :
    (toolOut = none → check_smart_status toolOut = "ERROR") ∧
    (∀ out, toolOut = some out →
      (searchSmart out.data = none → check_smart_status toolOut = "UNKNOWN") ∧
      (∀ w, searchSmart out.data = some w →
        check_smart_status toolOut = String.mk w ∧ w ≠ [] ∧
        w.all isWordChar = true ∧
        ∃ p q, out.data = p ++ smartPat ++ (w ++ q))) ∧
    (check_smart_status toolOut = "ERROR" ∨
     check_smart_status toolOut = "UNKNOWN" ∨
     ∃ w, check_smart_status toolOut = String.mk w ∧ w ≠ [] ∧
       w.all isWordChar = true) := by
  cases toolOut with
  | none =>
    exact ⟨fun _ => rfl, fun out h => Option.noConfusion h, Or.inl rfl⟩
  | some out =>
    refine ⟨fun h => Option.noConfusion h, ?_, ?_⟩
    · intro o ho
      injection ho with ho
      subst ho
      constructor
      · intro hs
        simp only [check_smart_status]
        rw [hs]
      · intro w hs
        obtain ⟨hne, hall, p, q, hpq⟩ := searchSmart_spec out.data w hs
        refine ⟨?_, hne, hall, p, q, hpq⟩
        simp only [check_smart_status]
        rw [hs]
    · cases hs : searchSmart out.data with
      | none =>
        refine Or.inr (Or.inl ?_)
        simp only [check_smart_status]
        rw [hs]
      | some w =>
        obtain ⟨hne, hall, -⟩ := searchSmart_spec out.data w hs
        refine Or.inr (Or.inr ⟨w, ?_, hne, hall⟩)
        simp only [check_smart_status]
        rw [hs]

/-- Witness for C5: a real `smartctl -H` output yields the token `PASSED`;
a token-free output yields `UNKNOWN`; a raising invocation yields `ERROR`. -/
theorem c5_witness :
    check_smart_status
      (some "SMART overall-health self-assessment test result: PASSED\n") =
      "PASSED" ∧
    check_smart_status (some "no token here") = "UNKNOWN" ∧
    check_smart_status none = "ERROR" :=
  ⟨(((c5_classifier_total
      (some "SMART overall-health self-assessment test result: PASSED\n")).2.1
      _ rfl).2 "PASSED".data (by decide)).1.trans (by decide),
   ((c5_classifier_total (some "no token here")).2.1 _ rfl).1 (by decide),
   (c5_classifier_total none).1 rfl⟩

/-- C6: a log line is flagged as an anomaly iff its lowercasing contains
the lowercasing of one of the seven fixed keywords as a (not necessarily
word-bounded) substring; `parse_log_for_errors` keeps exactly the flagged
lines (stripped); `"ATA bus ERROR detected"` is flagged and
`"disk nominal"` is not. -/
theorem c6_anomaly_iff (line : String) :
    (anomalyLine line = true ↔
      ∃ kw ∈ error_keywords, ∃ p q,
        lowerChars line = p ++ lowerChars kw ++ q) ∧
    (∀ lines, parse_log_for_errors (some lines) =
      (lines.filter anomalyLine).map pyStrip) ∧
    anomalyLine "ATA bus ERROR detected" = true ∧
    anomalyLine "disk nominal" = false := by
  refine ⟨?_, fun lines => rfl, by decide, by decide⟩
  simp [anomalyLine, List.any_eq_true, containsSub_iff]

/-- Witness for C6: the flagged example, extracted through the theorem. -/
theorem c6_witness :
    anomalyLine "ATA bus ERROR detected" = true ∧
    anomalyLine "disk nominal" = false :=
  ⟨(c6_anomaly_iff "ATA bus ERROR detected").2.2.1,
   (c6_anomaly_iff "disk nominal").2.2.2⟩

/-- C7: the alert payload has the fixed subject, and its body is the
header followed by the failed-disk section (empty when no failed disks)
followed by the log-anomaly section (empty when no anomalies), each section
itemizing its entries; `main` sends exactly this payload when the alert
fires. -/
theorem c7_payload (failed logErrors : List String) (registry : Option String)
    (status : String → String) (logSrc : Option (List String))
    (transport : Except String Unit) :
    composeBody failed logErrors = specBody failed logErrors ∧
    specFailedSection [] = "" ∧
    specLogSection [] = "" ∧
    ((mainRun registry status logSrc transport).alertFired = true →
      (mainRun registry status logSrc transport).emailPayload =
        some (alertSubject,
          composeBody (mainRun registry status logSrc transport).failedDisks
            (mainRun registry status logSrc transport).logErrors)) := by
  refine ⟨composeBody_eq_specBody failed logErrors, rfl, rfl, ?_⟩
  cases hd : get_disks registry with
  | nil =>
    unfold mainRun
    rw [hd]
    exact fun h => Bool.noConfusion h
  | cons d ds =>
    unfold mainRun
    rw [hd]
    simp only [List.isEmpty_cons, Bool.false_eq_true, if_false]
    split
    · intro _
      rfl
    · exact fun h => Bool.noConfusion h

/-- Witness for C7: one failed disk, no anomalies; the sent payload is the
subject plus the composed body. -/
theorem c7_witness :
    (mainRun (some "sda disk") (fun _ => "FAILED") (some [])
      (Except.ok ())).emailPayload =
      some (alertSubject,
        composeBody
          (mainRun (some "sda disk") (fun _ => "FAILED") (some [])
            (Except.ok ())).failedDisks
          (mainRun (some "sda disk") (fun _ => "FAILED") (some [])
            (Except.ok ())).logErrors) :=
  (c7_payload [] [] (some "sda disk") (fun _ => "FAILED") (some [])
    (Except.ok ())).2.2.2 (by decide)

/-- C8: `send_email` swallows any composing/sending exception and returns,
and the repair workflow `main` runs afterwards is independent of the
transport outcome: the disks handed to `prompt_repair` are the same for any
two transports, and whenever the alert fires they are exactly the failed
disks. -/
theorem c8_transport_failure_isolated (registry : Option String)
    (status : String → String) (logSrc : Option (List String))
    (t1 t2 : Except String Unit) :
    (∀ e, send_email (Except.error e) = false) ∧
    (mainRun registry status logSrc t1).repairTargets =
      (mainRun registry status logSrc t2).repairTargets ∧
    ((mainRun registry status logSrc t1).alertFired = true →
      (mainRun registry status logSrc t1).repairTargets =
        some (failedOf (get_disks registry) status)) := by
  refine ⟨fun e => rfl, ?_, ?_⟩
  · cases hd : get_disks registry with
    | nil =>
      unfold mainRun
      rw [hd]
      rfl
    | cons d ds =>
      unfold mainRun
      rw [hd]
      simp only [List.isEmpty_cons, Bool.false_eq_true, if_false]
      split <;> rfl
  · cases hd : get_disks registry with
    | nil =>
      unfold mainRun
      rw [hd]
      exact fun h => Bool.noConfusion h
    | cons d ds =>
      unfold mainRun
      rw [hd]
      simp only [List.isEmpty_cons, Bool.false_eq_true, if_false]
      split
      · intro _
        rw [← hd]
      · exact fun h => Bool.noConfusion h

/-- Witness for C8: a failing transport; the repair targets still come out
as the failed-disk list. -/
theorem c8_witness :
    (mainRun (some "sda disk") (fun _ => "FAILED") (some [])
      (Except.error "smtp down")).repairTargets =
      some (failedOf (get_disks (some "sda disk")) (fun _ => "FAILED")) :=
  (c8_transport_failure_isolated (some "sda disk") (fun _ => "FAILED")
    (some []) (Except.error "smtp down") (Except.ok ())).2.2 (by decide)

/-- C9: the process exit status is `1` exactly when the configuration
module is absent, in which case no device scan occurs and `main` never
runs; with configuration present every run — alert fired or not — exits
`0`, so there is no distinct exit code for "alert fired". -/
theorem c9_exit_codes (configPresent : Bool) (registry : Option String)
    (status : String → String) (logSrc : Option (List String))
    (transport : Except String Unit) :
    ((program configPresent registry status logSrc transport).exitCode = 1 ↔
      configPresent = false) ∧
    (configPresent = false →
      (program configPresent registry status logSrc transport).deviceScanRan
        = false ∧
      (program configPresent registry status logSrc transport).run = none) ∧
    (configPresent = true →
      (program configPresent registry status logSrc transport).exitCode
        = 0) := by
  cases configPresent <;> simp [program]

/-- Witness for C9: absent configuration exits `1`; a run that detects a
failed disk and an anomaly still exits `0`. -/
theorem c9_witness :
    (program false none (fun _ => "PASSED") none (Except.ok ())).exitCode
      = 1 ∧
    (program true (some "sda disk") (fun _ => "FAILED")
      (some ["disk error"]) (Except.ok ())).exitCode = 0 :=
  ⟨(c9_exit_codes false none (fun _ => "PASSED") none (Except.ok ())).1.mpr
      rfl,
   (c9_exit_codes true (some "sda disk") (fun _ => "FAILED")
      (some ["disk error"]) (Except.ok ())).2.2 rfl⟩

end DiskHealthMonitor
